import Mathlib

/-!
Shallow embedding of the glitter OpenGL wrapper library
(src/program.rs, src/renderbuffer.rs, src/context.rs).

The underlying GL driver is modelled as a record of responses (`Driver`);
each wrapper function is translated to a pure Lean function that returns
its Rust result together with the list of driver calls it issued
(`List GLCall`).  Machine integers: GLuint / GLsizei buffers are `Nat`
(with explicit `% 2^32` where a cast can wrap), GLint is `Int`.
Rust `&str` / `String` values are byte lists (`List Nat`) and decoded
strings are code-point lists, so that everything evaluates by `decide`.
-/

/-! ### GL constants (from the `gl` crate) -/

def GL_LINK_STATUS : Nat := 0x8B82
def GL_INFO_LOG_LENGTH : Nat := 0x8B84
def GL_RENDERBUFFER : Nat := 0x8D41
def GL_TRUE : Int := 1
def GL_FALSE : Nat := 0

/-- Rust `expr as GLint` on an unsigned 32-bit value: truncate to 32 bits
and reinterpret as two's-complement signed. -/
def asGLint (n : Nat) : Int :=
  let m : Nat := n % 2 ^ 32
  if m < 2 ^ 31 then (m : Int) else (m : Int) - 2 ^ 32

/-- Rust `usize as GLsizei`: same 32-bit truncating signed reinterpretation. -/
def asGLsizei (n : Nat) : Int := asGLint n

deriving instance DecidableEq for Except

/-! ### Driver calls issued through the FFI -/

/-- One call into the GL driver, with the arguments the wrapper passes. -/
inductive GLCall where
  | CreateProgram
  | DeleteProgram (id : Nat)
  | AttachShader (program shader : Nat)
  | LinkProgram (id : Nat)
  | GetProgramiv (id : Nat) (pname : Nat)
  | GetProgramInfoLog (id : Nat) (maxLength : Int)
  | GetAttribLocation (id : Nat) (name : List Nat)
  | GetUniformLocation (id : Nat) (name : List Nat)
  | UseProgram (id : Nat)
  | GenRenderbuffers (n : Nat)
  | BindRenderbuffer (target : Nat) (id : Nat)
  | DeleteRenderbuffers (n : Nat) (id : Nat)
  | EnableVertexAttribArray (index : Nat)
  | Uniform1fv (location : Int) (count : Int) (bytes : List Nat)
  | Uniform1iv (location : Int) (count : Int) (bytes : List Nat)
  | Uniform2fv (location : Int) (count : Int) (bytes : List Nat)
  | Uniform2iv (location : Int) (count : Int) (bytes : List Nat)
  | Uniform3fv (location : Int) (count : Int) (bytes : List Nat)
  | Uniform3iv (location : Int) (count : Int) (bytes : List Nat)
  | Uniform4fv (location : Int) (count : Int) (bytes : List Nat)
  | Uniform4iv (location : Int) (count : Int) (bytes : List Nat)
  | UniformMatrix2fv (location : Int) (count : Int) (transpose : Nat) (bytes : List Nat)
  | UniformMatrix3fv (location : Int) (count : Int) (transpose : Nat) (bytes : List Nat)
  | UniformMatrix4fv (location : Int) (count : Int) (transpose : Nat) (bytes : List Nat)
  deriving DecidableEq

/-- The driver's responses to the queries the embedded functions make.
Each field is the value the corresponding GL entry point returns or
writes through its out-parameter. -/
structure Driver where
  /-- handle returned by `glCreateProgram` -/
  createProgramRet : Nat
  /-- handle written by `glGenRenderbuffers` -/
  genRenderbufferWrite : Nat
  /-- `GLint` written for the `GL_LINK_STATUS` query -/
  linkStatusVal : Int
  /-- `GLint` written for the `GL_INFO_LOG_LENGTH` query -/
  infoLogLength : Int
  /-- bytes written into the caller's buffer by `glGetProgramInfoLog` -/
  infoLogBytes : List Nat
  /-- `GLint` returned by `glGetAttribLocation` -/
  attribLocationRet : Int
  /-- `GLint` returned by `glGetUniformLocation` -/
  uniformLocationRet : Int
  deriving DecidableEq

/-! ### Error type

Modelled from the spec: `types.rs` is not under src/; §6/§7 of the spec
document the `GLError` variants (InvalidEnum, InvalidValue,
InvalidOperation, plus a Message variant carrying link-failure text). -/

/-- Modelled from the spec: `GLError` from the missing `types.rs`, with the
`Message` payload as a list of Unicode code points. -/
inductive GLError where
  | InvalidEnum
  | InvalidValue
  | InvalidOperation
  | Message (text : List Nat)
  deriving DecidableEq

/-! ### Object wrappers -/

/-- `pub struct Program { gl_id: GLuint }` (program.rs). -/
structure Program where
  gl_id : Nat
  deriving DecidableEq

/-- `pub struct Renderbuffer { gl_id: GLuint }` (renderbuffer.rs). -/
structure Renderbuffer where
  gl_id : Nat
  deriving DecidableEq

/-- Modelled from the spec: `Shader` from the missing `shader.rs`; a
wrapper holding one numeric handle, like the other object wrappers. -/
structure Shader where
  gl_id : Nat
  deriving DecidableEq

/-- `impl Drop for Program`: issues `gl::DeleteProgram(self.gl_id)`
(program.rs lines 21-27). -/
def Program.drop (p : Program) : List GLCall :=
  [GLCall.DeleteProgram p.gl_id]

/-- `impl Drop for Renderbuffer`: issues
`gl::DeleteRenderbuffers(1, &self.gl_id)` (renderbuffer.rs lines 18-24). -/
def Renderbuffer.drop (r : Renderbuffer) : List GLCall :=
  [GLCall.DeleteRenderbuffers 1 r.gl_id]

/-- `#[derive(Clone, Copy)] pub struct ProgramAttrib { pub gl_index: GLuint }`. -/
structure ProgramAttrib where
  gl_index : Nat
  deriving DecidableEq

/-- `#[derive(Clone, Copy)] pub struct ProgramUniform { pub gl_index: GLuint }`. -/
structure ProgramUniform where
  gl_index : Nat
  deriving DecidableEq

/-! ### Context (context.rs) -/

structure ArrayBufferBinder where
  deriving DecidableEq

structure ElementArrayBufferBinder where
  deriving DecidableEq

/-- `pub struct Context` (context.rs lines 6-9). -/
structure Context where
  array_buffer : ArrayBufferBinder
  element_array_buffer : ElementArrayBufferBinder
  deriving DecidableEq

/-- `Context::create_program` (program.rs lines 45-55): calls
`gl::CreateProgram`; `Ok` with the wrapper iff the returned id is `> 0`. -/
def Context.create_program (_c : Context) (d : Driver) :
    Except Unit Program × List GLCall :=
  let id := d.createProgramRet
  if id > 0 then
    (Except.ok { gl_id := id }, [GLCall.CreateProgram])
  else
    (Except.error (), [GLCall.CreateProgram])

/-- `Context::attach_shader` (program.rs lines 57-66): issues
`gl::AttachShader`; the `&mut Program` receiver is returned unchanged. -/
def Context.attach_shader (_c : Context) (program : Program) (shader : Shader) :
    Program × List GLCall :=
  (program, [GLCall.AttachShader program.gl_id shader.gl_id])

/-- `Context::enable_vertex_attrib_array` (context.rs lines 31-35):
passes `attrib.gl_index` (a GLuint) directly, no cast. -/
def Context.enable_vertex_attrib_array (_c : Context) (attrib : ProgramAttrib) :
    List GLCall :=
  [GLCall.EnableVertexAttribArray attrib.gl_index]

/-! ### UTF-8 decoding (Rust `String::from_utf8`) -/

/-- UTF-8 continuation byte (`0x80..=0xBF`). -/
def isCont (b : Nat) : Bool := 0x80 ≤ b && b ≤ 0xBF

/-- Decode one UTF-8 scalar value from the front of a byte list, with the
validity rules of Rust's `String::from_utf8` (continuation-byte ranges
reject overlong encodings, surrogates and values above `0x10FFFF`).
Returns the code point and the remaining bytes. -/
def decodeOne : List Nat → Option (Nat × List Nat)
  | [] => none
  | b :: rest =>
    if b ≤ 0x7F then some (b, rest)
    else if 0xC2 ≤ b && b ≤ 0xDF then
      match rest with
      | b1 :: rest1 =>
        if isCont b1 then some ((b - 0xC0) * 0x40 + (b1 - 0x80), rest1)
        else none
      | [] => none
    else if 0xE0 ≤ b && b ≤ 0xEF then
      match rest with
      | b1 :: b2 :: rest2 =>
        let ok1 : Bool :=
          if b = 0xE0 then 0xA0 ≤ b1 && b1 ≤ 0xBF
          else if b = 0xED then 0x80 ≤ b1 && b1 ≤ 0x9F
          else isCont b1
        if ok1 && isCont b2 then
          some ((b - 0xE0) * 0x1000 + (b1 - 0x80) * 0x40 + (b2 - 0x80), rest2)
        else none
      | _ => none
    else if 0xF0 ≤ b && b ≤ 0xF4 then
      match rest with
      | b1 :: b2 :: b3 :: rest3 =>
        let ok1 : Bool :=
          if b = 0xF0 then 0x90 ≤ b1 && b1 ≤ 0xBF
          else if b = 0xF4 then 0x80 ≤ b1 && b1 ≤ 0x8F
          else isCont b1
        if ok1 && isCont b2 && isCont b3 then
          some ((b - 0xF0) * 0x40000 + (b1 - 0x80) * 0x1000 +
                  (b2 - 0x80) * 0x40 + (b3 - 0x80), rest3)
        else none
      | _ => none
    else none

theorem decodeOne_length : ∀ {l : List Nat} {cr : Nat × List Nat},
    decodeOne l = some cr → cr.2.length < l.length := by
  intro l cr h
  cases l with
  | nil => simp [decodeOne] at h
  | cons b rest =>
    rw [decodeOne.eq_def] at h
    repeat' split at h
    all_goals simp_all
    all_goals (obtain ⟨c, r⟩ := cr; simp_all)
    all_goals omega

/-- Fuel-indexed UTF-8 decoding loop; the fuel only bounds the recursion
depth and is irrelevant as long as it is at least the list length
(`utf8DecodeAux_fuel`). -/
def utf8DecodeAux : Nat → List Nat → Option (List Nat)
  | _, [] => some []
  | 0, _ :: _ => none
  | fuel + 1, b :: rest =>
    match decodeOne (b :: rest) with
    | none => none
    | some (c, r) =>
      match utf8DecodeAux fuel r with
      | some cs => some (c :: cs)
      | none => none

/-- Decode a whole byte list as UTF-8; `some` of the code points iff the
bytes are valid, mirroring `String::from_utf8(bytes).ok()`. -/
def utf8Decode (l : List Nat) : Option (List Nat) :=
  utf8DecodeAux l.length l

/-! ### Program info log, linking, location lookup (program.rs) -/

/-- `Context::get_program_info_log` (program.rs lines 97-124): queries
`GL_INFO_LOG_LENGTH`; if it is `> 0`, allocates a buffer of exactly that
length, fetches the log, keeps the first `info_length - 1` bytes
(`bytes.set_len((info_length - 1) as usize)`, dropping the trailing NUL)
and decodes them as UTF-8, turning a decode failure into `none`
(`String::from_utf8(bytes).ok()`); otherwise returns `none`. -/
def Context.get_program_info_log (_c : Context) (d : Driver) (program : Program) :
    Option (List Nat) × List GLCall :=
  let info_length : Int := d.infoLogLength
  if info_length > 0 then
    let bytes := d.infoLogBytes.take (info_length - 1).toNat
    (utf8Decode bytes,
     [GLCall.GetProgramiv program.gl_id GL_INFO_LOG_LENGTH,
      GLCall.GetProgramInfoLog program.gl_id info_length])
  else
    (none, [GLCall.GetProgramiv program.gl_id GL_INFO_LOG_LENGTH])

/-- The code points of the fallback literal `"[Unknown program error]"`
(program.rs line 91), ASCII. -/
def unknownProgramError : List Nat :=
  [91, 85, 110, 107, 110, 111, 119, 110, 32, 112, 114, 111, 103, 114, 97,
   109, 32, 101, 114, 114, 111, 114, 93]

/-- `Context::link_program` (program.rs lines 68-95): issues
`gl::LinkProgram`, queries `GL_LINK_STATUS`; success iff the status equals
`gl::TRUE as GLint`; on failure fetches the info log and wraps it (or the
fallback literal when the log is absent) in `GLError::Message`.  The
`&mut Program` receiver is returned unchanged. -/
def Context.link_program (c : Context) (d : Driver) (program : Program) :
    (Except GLError Unit × Program) × List GLCall :=
  let base := [GLCall.LinkProgram program.gl_id,
               GLCall.GetProgramiv program.gl_id GL_LINK_STATUS]
  let success := d.linkStatusVal = GL_TRUE
  if success then
    ((Except.ok (), program), base)
  else
    let log := c.get_program_info_log d program
    let msg := match log.1 with
      | some s => s
      | none => unknownProgramError
    ((Except.error (GLError.Message msg), program), base ++ log.2)

/-- `Context::get_attrib_location` (program.rs lines 126-145):
`CString::new(name)` fails locally iff `name` has a NUL byte (no driver
call); otherwise `gl::GetAttribLocation` is issued and a non-negative
index is wrapped (`index as GLuint`), a negative one becomes `Err(())`. -/
def Context.get_attrib_location (_c : Context) (d : Driver) (program : Program)
    (name : List Nat) : Except Unit ProgramAttrib × List GLCall :=
  if name.contains 0 then
    (Except.error (), [])
  else
    let index : Int := d.attribLocationRet
    if index ≥ 0 then
      (Except.ok { gl_index := index.toNat },
       [GLCall.GetAttribLocation program.gl_id name])
    else
      (Except.error (), [GLCall.GetAttribLocation program.gl_id name])

/-- `Context::get_uniform_location` (program.rs lines 147-167): same shape
as `get_attrib_location`, through `gl::GetUniformLocation`. -/
def Context.get_uniform_location (_c : Context) (d : Driver) (program : Program)
    (name : List Nat) : Except Unit ProgramUniform × List GLCall :=
  if name.contains 0 then
    (Except.error (), [])
  else
    let index : Int := d.uniformLocationRet
    if index ≥ 0 then
      (Except.ok { gl_index := index.toNat },
       [GLCall.GetUniformLocation program.gl_id name])
    else
      (Except.error (), [GLCall.GetUniformLocation program.gl_id name])

/-! ### Uniform upload (program.rs, `ProgramBinding::set_uniform`) -/

/-- `UniformPrimitiveType` from `uniform_data.rs` (its variants are fixed
by the `match` arms of `set_uniform` in program.rs). -/
inductive UniformPrimitiveType where
  | Float
  | Int
  deriving DecidableEq

/-- `UniformDatumType` from `uniform_data.rs` (its ten variants are fixed
by the `match` arms of `set_uniform` in program.rs). -/
inductive UniformDatumType where
  | Vec1 (p : UniformPrimitiveType)
  | Vec2 (p : UniformPrimitiveType)
  | Vec3 (p : UniformPrimitiveType)
  | Vec4 (p : UniformPrimitiveType)
  | Matrix2x2
  | Matrix3x3
  | Matrix4x4
  deriving DecidableEq

/-- A value of a `UniformData` type `T`: `T::uniform_datum_type()`,
`val.uniform_elements()` and `val.uniform_bytes()` as seen by
`set_uniform`. -/
structure UniformDataVal where
  uniform_datum_type : UniformDatumType
  uniform_elements : Nat
  uniform_bytes : List Nat
  deriving DecidableEq

/-- `pub struct ProgramBinding<'a> { phantom: PhantomData<&'a mut Program> }`. -/
structure ProgramBinding where
  deriving DecidableEq

/-- `ProgramBinding::set_uniform` (program.rs lines 176-250): dispatches on
`T::uniform_datum_type()` to exactly one `gl::Uniform*` call, passing
`uniform.gl_index as GLint`, `val.uniform_elements() as GLsizei` and the
byte pointer; the matrix calls additionally pass `gl::FALSE` for
`transpose`. -/
def ProgramBinding.set_uniform (_b : ProgramBinding) (uniform : ProgramUniform)
    (val : UniformDataVal) : List GLCall :=
  let idx : Int := asGLint uniform.gl_index
  let count : Int := asGLsizei val.uniform_elements
  let ptr := val.uniform_bytes
  match val.uniform_datum_type with
  | UniformDatumType.Vec1 UniformPrimitiveType.Float => [GLCall.Uniform1fv idx count ptr]
  | UniformDatumType.Vec1 UniformPrimitiveType.Int => [GLCall.Uniform1iv idx count ptr]
  | UniformDatumType.Vec2 UniformPrimitiveType.Float => [GLCall.Uniform2fv idx count ptr]
  | UniformDatumType.Vec2 UniformPrimitiveType.Int => [GLCall.Uniform2iv idx count ptr]
  | UniformDatumType.Vec3 UniformPrimitiveType.Float => [GLCall.Uniform3fv idx count ptr]
  | UniformDatumType.Vec3 UniformPrimitiveType.Int => [GLCall.Uniform3iv idx count ptr]
  | UniformDatumType.Vec4 UniformPrimitiveType.Float => [GLCall.Uniform4fv idx count ptr]
  | UniformDatumType.Vec4 UniformPrimitiveType.Int => [GLCall.Uniform4iv idx count ptr]
  | UniformDatumType.Matrix2x2 => [GLCall.UniformMatrix2fv idx count GL_FALSE ptr]
  | UniformDatumType.Matrix3x3 => [GLCall.UniformMatrix3fv idx count GL_FALSE ptr]
  | UniformDatumType.Matrix4x4 => [GLCall.UniformMatrix4fv idx count GL_FALSE ptr]

/-! ### Program binder (program.rs, `ProgramBinder::bind`) -/

/-- `pub struct ProgramBinder;`. -/
structure ProgramBinder where
  deriving DecidableEq

/-- `ProgramBinder::bind` (program.rs lines 253-268): requires exclusive
access to the binder (`&mut self`) and to the program (`&mut Program`),
issues `gl::UseProgram` and returns the `ProgramBinding`.  The `&mut`
receivers are returned unchanged. -/
def ProgramBinder.bind (b : ProgramBinder) (program : Program) :
    (ProgramBinding × ProgramBinder × Program) × List GLCall :=
  ((ProgramBinding.mk, b, program), [GLCall.UseProgram program.gl_id])

/-! ### Renderbuffer binding (renderbuffer.rs) -/

/-- `gl_enum! { pub gl_enum RenderbufferTarget { Renderbuffer = gl::RENDERBUFFER } }`. -/
inductive RenderbufferTarget where
  | Renderbuffer
  deriving DecidableEq

def RenderbufferTarget.gl_enum : RenderbufferTarget → Nat
  | RenderbufferTarget.Renderbuffer => GL_RENDERBUFFER

/-- `pub struct RenderbufferBinding<'a> { phantom: PhantomData<&'a mut Renderbuffer> }`. -/
structure RenderbufferBinding where
  deriving DecidableEq

/-- `RenderbufferBinding::target` (renderbuffer.rs lines 67-71). -/
def RenderbufferBinding.target (_b : RenderbufferBinding) : RenderbufferTarget :=
  RenderbufferTarget.Renderbuffer

/-- `pub struct RenderbufferBinder;`. -/
structure RenderbufferBinder where
  deriving DecidableEq

/-- `RenderbufferBinder::bind` (renderbuffer.rs lines 74-89): requires
exclusive access to the binder (`&mut self`) and the renderbuffer, issues
`gl::BindRenderbuffer(GL_RENDERBUFFER, renderbuffer.gl_id())`. -/
def RenderbufferBinder.bind (b : RenderbufferBinder) (renderbuffer : Renderbuffer) :
    (RenderbufferBinding × RenderbufferBinder × Renderbuffer) × List GLCall :=
  let binding := RenderbufferBinding.mk
  ((binding, b, renderbuffer),
   [GLCall.BindRenderbuffer binding.target.gl_enum renderbuffer.gl_id])

/-- `ContextOf<AB, EAB, P, FB, RB, TU>`: the context parameterized, per
bindable target, by the type occupying that slot (renderbuffer.rs
`impl<AB, EAB, P, FB, RB, TU> ContextOf<AB, EAB, P, FB, RB, TU>`; the
struct itself is not under src/, its slot list is fixed by this impl). -/
structure ContextOf (AB EAB P FB RB TU : Type) where
  array_buffer : AB
  element_array_buffer : EAB
  program : P
  framebuffer : FB
  renderbuffer : RB
  tex_units : TU

/-- Modelled from the spec: `ContextOf::split_renderbuffer` is not under
src/; per §4.1 it moves the renderbuffer slot's contents out, leaving the
slot marker "empty" (`()`), and returns the residual context. -/
def ContextOf.split_renderbuffer {AB EAB P FB RB TU : Type}
    (c : ContextOf AB EAB P FB RB TU) : RB × ContextOf AB EAB P FB Unit TU :=
  (c.renderbuffer,
   { array_buffer := c.array_buffer,
     element_array_buffer := c.element_array_buffer,
     program := c.program,
     framebuffer := c.framebuffer,
     renderbuffer := (),
     tex_units := c.tex_units })

/-- `ContextOf::gen_renderbuffer` (renderbuffer.rs lines 27-41): calls
`gl::GenRenderbuffers(1, &mut id)` and returns the wrapper around whatever
handle the driver wrote — there is no zero-check and no error result. -/
def ContextOf.gen_renderbuffer {AB EAB P FB RB TU : Type}
    (_c : ContextOf AB EAB P FB RB TU) (d : Driver) :
    Renderbuffer × List GLCall :=
  ({ gl_id := d.genRenderbufferWrite }, [GLCall.GenRenderbuffers 1])

/-- `ContextOf::bind_renderbuffer` (renderbuffer.rs lines 43-52): consumes
the context (`self`), splits the renderbuffer binder out of it, binds, and
returns the binding with the residual context whose renderbuffer slot is
`()`.  `RB: BorrowMut<RenderbufferBinder>` is instantiated at
`RB = RenderbufferBinder`. -/
def ContextOf.bind_renderbuffer {AB EAB P FB TU : Type}
    (c : ContextOf AB EAB P FB RenderbufferBinder TU) (renderbuffer : Renderbuffer) :
    ((RenderbufferBinding × ContextOf AB EAB P FB Unit TU) × Renderbuffer) × List GLCall :=
  let sp := c.split_renderbuffer
  let bound := sp.1.bind renderbuffer
  (((bound.1.1, sp.2), bound.1.2.2), bound.2)

/-! ### Runtime view of the binder-slot discipline -/

/-- Modelled from the spec: §5/§8 — in absence of type-level slot tracking
the discipline is an explicit "slot is currently lent" state where a bind
of an already-lent slot is a deterministic failure.  The slot holds
`some binder` when the binder is available and `none` while it is lent
out; binding moves the binder out of the slot. -/
def bindRenderbufferSlot (slot : Option RenderbufferBinder)
    (renderbuffer : Renderbuffer) :
    Option (RenderbufferBinding × Option RenderbufferBinder) :=
  match slot with
  | some b => some (((b.bind renderbuffer).1.1, none))
  | none => none

/-- Modelled from the spec: the same runtime slot discipline for the
program target (`ProgramBinder::bind` requires exclusive access to the
binder). -/
def bindProgramSlot (slot : Option ProgramBinder) (program : Program) :
    Option (ProgramBinding × Option ProgramBinder) :=
  match slot with
  | some b => some (((b.bind program).1.1, none))
  | none => none

/-! ### RAII scope model

Rust drops an owned wrapper exactly when its scope ends; a scope that
creates a wrapper, uses it (the body can only borrow it, so its calls are
an arbitrary trace that does not delete the wrapper's handle), and ends,
is modelled by the following combinators. -/

/-- Scope of a `Program` created by `create_program`: on creation success
the body runs on a borrow of the wrapper and the wrapper's `Drop` code
runs once at the end of the scope; on creation failure there is no
wrapper and no destructor. -/
def withProgram {α : Type} (c : Context) (d : Driver)
    (body : Program → α × List GLCall) : Option α × List GLCall :=
  match c.create_program d with
  | (Except.ok p, t0) => (some (body p).1, t0 ++ (body p).2 ++ p.drop)
  | (Except.error _, t0) => (none, t0)

/-- Scope of a `Renderbuffer` created by `gen_renderbuffer` (which always
returns a wrapper): the body runs on a borrow, then `Drop` runs once. -/
def withRenderbuffer {α AB EAB P FB RB TU : Type}
    (c : ContextOf AB EAB P FB RB TU) (d : Driver)
    (body : Renderbuffer → α × List GLCall) : α × List GLCall :=
  let g := c.gen_renderbuffer d
  ((body g.1).1, g.2 ++ (body g.1).2 ++ g.1.drop)

/-! ### Concrete fixtures for witnesses and counterexamples -/

def ctx0 : Context := { array_buffer := {}, element_array_buffer := {} }

def ctxOf0 : ContextOf Unit Unit Unit Unit Unit Unit :=
  { array_buffer := (), element_array_buffer := (), program := (),
    framebuffer := (), renderbuffer := (), tex_units := () }

def p0 : Program := { gl_id := 1 }

/-- A baseline driver for concrete evaluations. -/
def drv0 : Driver :=
  { createProgramRet := 7, genRenderbufferWrite := 5, linkStatusVal := 1,
    infoLogLength := 0, infoLogBytes := [], attribLocationRet := 3,
    uniformLocationRet := 4 }

/-- A driver on which linking fails with `INFO_LOG_LENGTH == 0`. -/
def drvFail0 : Driver := { drv0 with linkStatusVal := 0 }

/-- A driver on which linking fails with `INFO_LOG_LENGTH == 1` (the
buffer holds only the NUL terminator, i.e. an empty log). -/
def drvFail1 : Driver :=
  { drv0 with linkStatusVal := 0, infoLogLength := 1, infoLogBytes := [0] }

/-- A driver whose `glGenRenderbuffers` writes the invalid handle `0`. -/
def drvGenZero : Driver := { drv0 with genRenderbufferWrite := 0 }

/-- A driver whose `glCreateProgram` returns `0`. -/
def drvCreateZero : Driver := { drv0 with createProgramRet := 0 }

/-! ### Helper lemmas -/

theorem asGLint_of_lt {n : Nat} (h : n < 2 ^ 31) : asGLint n = (n : Int) := by
  have h32 : n % 2 ^ 32 = n := Nat.mod_eq_of_lt (by omega)
  simp only [asGLint, h32]
  rw [if_pos h]

theorem utf8DecodeAux_fuel : ∀ (fuel fuel' : Nat) (l : List Nat),
    l.length ≤ fuel → l.length ≤ fuel' →
    utf8DecodeAux fuel l = utf8DecodeAux fuel' l := by
  intro fuel
  induction fuel with
  | zero =>
    intro fuel' l hf hf'
    have : l = [] := by
      cases l with
      | nil => rfl
      | cons b rest => simp at hf
    subst this
    simp [utf8DecodeAux]
  | succ f ih =>
    intro fuel' l hf hf'
    cases l with
    | nil => simp [utf8DecodeAux]
    | cons b rest =>
      cases fuel' with
      | zero => simp at hf'
      | succ f' =>
        simp only [utf8DecodeAux]
        cases hd : decodeOne (b :: rest) with
        | none => rfl
        | some cr =>
          obtain ⟨c, r⟩ := cr
          have hr := decodeOne_length hd
          simp only [List.length_cons] at hr hf hf'
          dsimp only
          rw [ih f' r (by omega) (by omega)]

theorem utf8Decode_ne_nil {l cs : List Nat} (hl : l ≠ [])
    (h : utf8Decode l = some cs) : cs ≠ [] := by
  cases l with
  | nil => exact absurd rfl hl
  | cons b rest =>
    rw [utf8Decode] at h
    simp only [List.length_cons, utf8DecodeAux] at h
    repeat' split at h
    all_goals try simp_all
    all_goals (intro hcs; subst hcs; simp_all)

/-! ### Claim theorems -/

/-- C1: for every bindable target, no two live Bindings for that target
coexist.  Type level: `bind_renderbuffer` consumes the context and the
residual context's renderbuffer slot holds `()` instead of the
`RenderbufferBinder` (so no second bind can be typed from it), and
`ProgramBinder::bind` requires exclusive access to the binder.  Runtime
view of the same discipline: binding moves the binder out of the slot, and
a bind on the emptied slot is a deterministic failure, for both the
renderbuffer and the program target. -/
theorem C1_no_double_binding :
    (∀ {AB EAB P FB TU : Type} (c : ContextOf AB EAB P FB RenderbufferBinder TU)
        (rb : Renderbuffer),
      ((c.bind_renderbuffer rb).1.1.2).renderbuffer = ()) ∧
    (∀ (b : RenderbufferBinder) (rb rb' : Renderbuffer),
      (bindRenderbufferSlot (some b) rb).map Prod.snd = some none ∧
      bindRenderbufferSlot none rb' = none) ∧
    (∀ (b : ProgramBinder) (p p' : Program),
      (bindProgramSlot (some b) p).map Prod.snd = some none ∧
      bindProgramSlot none p' = none) :=
  ⟨fun _ _ => rfl, fun _ _ _ => ⟨rfl, rfl⟩, fun _ _ _ => ⟨rfl, rfl⟩⟩

/-- C2: `link_program` issues the link call, then queries link-status; if
the status is true it returns `Ok(())`; otherwise it returns
`Err(GLError::Message(text))` where `text` is the fetched program info
log, with the exact literal `"[Unknown program error]"` substituted when
the log is absent — in particular whenever the driver reports an info-log
length of 0. -/
theorem C2_link_program (c : Context) (d : Driver) (p : Program) :
    (d.linkStatusVal = 1 →
      (c.link_program d p).1.1 = Except.ok () ∧
      (c.link_program d p).2 =
        [GLCall.LinkProgram p.gl_id, GLCall.GetProgramiv p.gl_id GL_LINK_STATUS]) ∧
    (d.linkStatusVal ≠ 1 →
      (c.link_program d p).1.1 =
        Except.error (GLError.Message
          ((c.get_program_info_log d p).1.getD unknownProgramError))) ∧
    (d.linkStatusVal ≠ 1 → d.infoLogLength = 0 →
      (c.link_program d p).1.1 =
        Except.error (GLError.Message unknownProgramError)) := by
  refine ⟨fun hs => ?_, fun hs => ?_, fun hs hlen => ?_⟩
  · simp [Context.link_program, GL_TRUE, hs]
  · cases hlog : (c.get_program_info_log d p).1 <;>
      simp [Context.link_program, GL_TRUE, hs, hlog]
  · have hlog : (c.get_program_info_log d p).1 = none := by
      simp [Context.get_program_info_log, hlen]
    simp [Context.link_program, GL_TRUE, hs, hlog]

/-- C2 witness: on a driver reporting link success the result is `Ok`;
on one reporting failure with `INFO_LOG_LENGTH == 0` it is the fallback
message. -/
theorem C2_link_program_witness :
    (ctx0.link_program drv0 p0).1.1 = Except.ok () ∧
    (ctx0.link_program drvFail0 p0).1.1 =
      Except.error (GLError.Message unknownProgramError) :=
  ⟨((C2_link_program ctx0 drv0 p0).1 (by decide)).1,
   (C2_link_program ctx0 drvFail0 p0).2.2 (by decide) (by decide)⟩

/-- C3 counterexample: `gen_renderbuffer` has no zero-check and no error
result; on a driver whose `glGenRenderbuffers` writes `0` it returns a
wrapper holding the invalid handle `0` to the caller. -/
theorem C3_counterexample :
    (ctxOf0.gen_renderbuffer drvGenZero).1 = { gl_id := 0 } ∧
    (ctxOf0.gen_renderbuffer drvGenZero).2 = [GLCall.GenRenderbuffers 1] :=
  ⟨rfl, rfl⟩

/-- C3 (amended): `create_program` either returns a wrapper holding a
handle greater than 0 or reports a creation error, and never returns a
zero-handle wrapper; `gen_renderbuffer`, however, performs no validity
check and returns a wrapper holding exactly the handle the driver wrote,
whatever it is. -/
theorem C3_creation_amended :
    (∀ (c : Context) (d : Driver) (p : Program),
      (c.create_program d).1 = Except.ok p → p.gl_id > 0) ∧
    (∀ (AB EAB P FB RB TU : Type) (c : ContextOf AB EAB P FB RB TU) (d : Driver),
      (c.gen_renderbuffer d).1.gl_id = d.genRenderbufferWrite) := by
  constructor
  · intro c d p h
    by_cases hd : d.createProgramRet > 0 <;>
      simp [Context.create_program, hd] at h
    simp [← h, hd]
  · intro _ _ _ _ _ _ _ _
    rfl

/-- C3 witness: on a driver whose `glCreateProgram` returns 7 the wrapper
holds a handle greater than 0. -/
theorem C3_creation_amended_witness : (Program.mk 7).gl_id > 0 :=
  C3_creation_amended.1 ctx0 drv0 (Program.mk 7) (by decide)

/-- C4: for every successfully created Program and Renderbuffer, the
driver deletion call is issued exactly once, with exactly that wrapper's
handle, at the end of the owning scope: the `Drop` code is exactly one
deletion call with the wrapper's handle; a scope that creates a wrapper
and whose body does not delete that handle produces a trace with the
deletion exactly once, as the final call; a scope whose creation failed
issues no deletion at all. -/
theorem C4_destruction :
    (∀ p : Program, p.drop = [GLCall.DeleteProgram p.gl_id]) ∧
    (∀ r : Renderbuffer, r.drop = [GLCall.DeleteRenderbuffers 1 r.gl_id]) ∧
    (∀ (α : Type) (c : Context) (d : Driver) (body : Program → α × List GLCall)
        (p : Program),
      (c.create_program d).1 = Except.ok p →
      GLCall.DeleteProgram p.gl_id ∉ (body p).2 →
      (withProgram c d body).2 =
        [GLCall.CreateProgram] ++ (body p).2 ++ [GLCall.DeleteProgram p.gl_id] ∧
      (withProgram c d body).2.count (GLCall.DeleteProgram p.gl_id) = 1) ∧
    (∀ (α : Type) (c : Context) (d : Driver) (body : Program → α × List GLCall)
        (h : Nat),
      (c.create_program d).1 = Except.error () →
      (withProgram c d body).2.count (GLCall.DeleteProgram h) = 0) ∧
    (∀ (α AB EAB P FB RB TU : Type) (c : ContextOf AB EAB P FB RB TU) (d : Driver)
        (body : Renderbuffer → α × List GLCall),
      GLCall.DeleteRenderbuffers 1 d.genRenderbufferWrite ∉
          (body (c.gen_renderbuffer d).1).2 →
      (withRenderbuffer c d body).2 =
        [GLCall.GenRenderbuffers 1] ++ (body (c.gen_renderbuffer d).1).2 ++
          [GLCall.DeleteRenderbuffers 1 d.genRenderbufferWrite] ∧
      (withRenderbuffer c d body).2.count
          (GLCall.DeleteRenderbuffers 1 d.genRenderbufferWrite) = 1) := by
  refine ⟨fun _ => rfl, fun _ => rfl, ?_, ?_, ?_⟩
  · intro α c d body p hok hbody
    by_cases hd : d.createProgramRet > 0 <;>
      simp [Context.create_program, hd] at hok
    have htrace : (withProgram c d body).2 =
        [GLCall.CreateProgram] ++ (body p).2 ++ [GLCall.DeleteProgram p.gl_id] := by
      simp [withProgram, Context.create_program, hd, ← hok, Program.drop]
    refine ⟨htrace, ?_⟩
    rw [htrace]
    simp [List.count_append, List.count_eq_zero.mpr hbody, List.count_cons]
  · intro α c d body h herr
    by_cases hd : d.createProgramRet > 0 <;>
      simp [Context.create_program, hd] at herr
    simp [withProgram, Context.create_program, hd]
  · intro α AB EAB P FB RB TU c d body hbody
    have htrace : (withRenderbuffer c d body).2 =
        [GLCall.GenRenderbuffers 1] ++ (body (c.gen_renderbuffer d).1).2 ++
          [GLCall.DeleteRenderbuffers 1 d.genRenderbufferWrite] := by
      simp [withRenderbuffer, ContextOf.gen_renderbuffer, Renderbuffer.drop]
    refine ⟨htrace, ?_⟩
    rw [htrace]
    simp [List.count_append, List.count_eq_zero.mpr hbody, List.count_cons]

/-- C4 witness: a scope with a trivially clean body around a successful
creation deletes the created handle exactly once, for both object kinds. -/
theorem C4_destruction_witness :
    (withProgram ctx0 drv0 (fun _ => ((), []))).2.count
        (GLCall.DeleteProgram 7) = 1 ∧
    (withRenderbuffer ctxOf0 drv0 (fun _ => ((), []))).2.count
        (GLCall.DeleteRenderbuffers 1 5) = 1 :=
  ⟨(C4_destruction.2.2.1 Unit ctx0 drv0 (fun _ => ((), [])) (Program.mk 7)
      (by decide) (by decide)).2,
   (C4_destruction.2.2.2.2 Unit Unit Unit Unit Unit Unit Unit ctxOf0 drv0
      (fun _ => ((), [])) (by decide)).2⟩

/-- C5: `get_attrib_location` and `get_uniform_location` fail locally,
issuing no driver call, when the name contains an embedded NUL; otherwise
they issue exactly the driver lookup and wrap a non-negative driver index,
or fail on a negative one — with the name-encoding failure and the
not-found failure both the same `Err(())`. -/
theorem C5_location_lookup (c : Context) (d : Driver) (p : Program)
    (name : List Nat) :
    (name.contains 0 = true →
      c.get_attrib_location d p name = (Except.error (), []) ∧
      c.get_uniform_location d p name = (Except.error (), [])) ∧
    (name.contains 0 = false →
      (c.get_attrib_location d p name).2 =
        [GLCall.GetAttribLocation p.gl_id name] ∧
      (c.get_uniform_location d p name).2 =
        [GLCall.GetUniformLocation p.gl_id name] ∧
      (0 ≤ d.attribLocationRet →
        (c.get_attrib_location d p name).1 =
          Except.ok { gl_index := d.attribLocationRet.toNat }) ∧
      (d.attribLocationRet < 0 →
        (c.get_attrib_location d p name).1 = Except.error ()) ∧
      (0 ≤ d.uniformLocationRet →
        (c.get_uniform_location d p name).1 =
          Except.ok { gl_index := d.uniformLocationRet.toNat }) ∧
      (d.uniformLocationRet < 0 →
        (c.get_uniform_location d p name).1 = Except.error ())) := by
  constructor
  · intro hnul
    constructor <;>
      · simp only [Context.get_attrib_location, Context.get_uniform_location]
        rw [if_pos hnul]
  · intro hnul
    have hcf : ¬ (name.contains 0 = true) := by rw [hnul]; simp
    refine ⟨?_, ?_, fun hge => ?_, fun hlt => ?_, fun hge => ?_, fun hlt => ?_⟩
    all_goals
      simp only [Context.get_attrib_location, Context.get_uniform_location]
    all_goals rw [if_neg hcf]
    · split <;> rfl
    · split <;> rfl
    · rw [if_pos (show d.attribLocationRet ≥ 0 by omega)]
    · rw [if_neg (show ¬ d.attribLocationRet ≥ 0 by omega)]
    · rw [if_pos (show d.uniformLocationRet ≥ 0 by omega)]
    · rw [if_neg (show ¬ d.uniformLocationRet ≥ 0 by omega)]

/-- C5 witness: a name with an embedded NUL fails with no driver call; a
clean name with driver index 3 resolves to the attrib location 3. -/
theorem C5_location_lookup_witness :
    ctx0.get_attrib_location drv0 p0 [65, 0] = (Except.error (), []) ∧
    (ctx0.get_attrib_location drv0 p0 [65]).1 = Except.ok { gl_index := 3 } :=
  ⟨((C5_location_lookup ctx0 drv0 p0 [65, 0]).1 (by decide)).1,
   ((C5_location_lookup ctx0 drv0 p0 [65]).2 (by decide)).2.2.1 (by decide)⟩

/-- C6: `set_uniform` issues exactly the one driver upload call matching
the value's declared `UniformDatumType` tag, for all 10 tags, passing the
location index (`gl_index as GLint`), the element count (as `GLsizei`) and
the byte pointer; the three matrix tags always pass
`transpose = GL_FALSE`. -/
theorem C6_set_uniform_dispatch (b : ProgramBinding) (u : ProgramUniform)
    (e : Nat) (bs : List Nat) :
    b.set_uniform u ⟨UniformDatumType.Vec1 UniformPrimitiveType.Float, e, bs⟩ =
      [GLCall.Uniform1fv (asGLint u.gl_index) (asGLsizei e) bs] ∧
    b.set_uniform u ⟨UniformDatumType.Vec1 UniformPrimitiveType.Int, e, bs⟩ =
      [GLCall.Uniform1iv (asGLint u.gl_index) (asGLsizei e) bs] ∧
    b.set_uniform u ⟨UniformDatumType.Vec2 UniformPrimitiveType.Float, e, bs⟩ =
      [GLCall.Uniform2fv (asGLint u.gl_index) (asGLsizei e) bs] ∧
    b.set_uniform u ⟨UniformDatumType.Vec2 UniformPrimitiveType.Int, e, bs⟩ =
      [GLCall.Uniform2iv (asGLint u.gl_index) (asGLsizei e) bs] ∧
    b.set_uniform u ⟨UniformDatumType.Vec3 UniformPrimitiveType.Float, e, bs⟩ =
      [GLCall.Uniform3fv (asGLint u.gl_index) (asGLsizei e) bs] ∧
    b.set_uniform u ⟨UniformDatumType.Vec3 UniformPrimitiveType.Int, e, bs⟩ =
      [GLCall.Uniform3iv (asGLint u.gl_index) (asGLsizei e) bs] ∧
    b.set_uniform u ⟨UniformDatumType.Vec4 UniformPrimitiveType.Float, e, bs⟩ =
      [GLCall.Uniform4fv (asGLint u.gl_index) (asGLsizei e) bs] ∧
    b.set_uniform u ⟨UniformDatumType.Vec4 UniformPrimitiveType.Int, e, bs⟩ =
      [GLCall.Uniform4iv (asGLint u.gl_index) (asGLsizei e) bs] ∧
    b.set_uniform u ⟨UniformDatumType.Matrix2x2, e, bs⟩ =
      [GLCall.UniformMatrix2fv (asGLint u.gl_index) (asGLsizei e) GL_FALSE bs] ∧
    b.set_uniform u ⟨UniformDatumType.Matrix3x3, e, bs⟩ =
      [GLCall.UniformMatrix3fv (asGLint u.gl_index) (asGLsizei e) GL_FALSE bs] ∧
    b.set_uniform u ⟨UniformDatumType.Matrix4x4, e, bs⟩ =
      [GLCall.UniformMatrix4fv (asGLint u.gl_index) (asGLsizei e) GL_FALSE bs] :=
  ⟨rfl, rfl, rfl, rfl, rfl, rfl, rfl, rfl, rfl, rfl, rfl⟩

/-- C7: `get_program_info_log` queries the info-log length first (the
length query is the first driver call on every path); a driver-reported
length of 0 (or less) yields `none` — in particular not the empty string;
a length `> 0` yields the UTF-8 decoding of the fetched buffer with its
trailing NUL byte trimmed (`info_length - 1` bytes of the `info_length`
sized buffer), where a decode failure yields `none` rather than an
error. -/
theorem C7_info_log (c : Context) (d : Driver) (p : Program) :
    (d.infoLogLength ≤ 0 →
      (c.get_program_info_log d p).1 = none ∧
      (c.get_program_info_log d p).2 =
        [GLCall.GetProgramiv p.gl_id GL_INFO_LOG_LENGTH]) ∧
    (0 < d.infoLogLength →
      (c.get_program_info_log d p).1 =
        utf8Decode (d.infoLogBytes.take (d.infoLogLength - 1).toNat) ∧
      (c.get_program_info_log d p).2 =
        [GLCall.GetProgramiv p.gl_id GL_INFO_LOG_LENGTH,
         GLCall.GetProgramInfoLog p.gl_id d.infoLogLength]) := by
  constructor
  · intro hle
    constructor <;>
      simp [Context.get_program_info_log, show ¬ d.infoLogLength > 0 by omega]
  · intro hgt
    constructor <;> simp [Context.get_program_info_log, hgt]

/-- C7 witness: a driver reporting length 0 yields `none` with only the
length query issued; a driver reporting length 6 with buffer
`"hello\0"` yields the code points of `"hello"`. -/
theorem C7_info_log_witness :
    (ctx0.get_program_info_log drv0 p0).1 = none ∧
    (ctx0.get_program_info_log
        { drv0 with infoLogLength := 6,
                    infoLogBytes := [104, 101, 108, 108, 111, 0] } p0).1 =
      some [104, 101, 108, 108, 111] := by
  constructor
  · exact ((C7_info_log ctx0 drv0 p0).1 (by decide)).1
  · rw [((C7_info_log ctx0
      { drv0 with infoLogLength := 6,
                  infoLogBytes := [104, 101, 108, 108, 111, 0] } p0).2
      (by decide)).1]
    decide

/-- C8 counterexample: the claim says every link failure carries a
non-empty message, for every info-log length the driver may report; but on
a driver reporting link failure with `INFO_LOG_LENGTH == 1` (a buffer
holding only the NUL terminator, i.e. an empty log), the info-log fetch
decodes zero bytes to the empty string, and `link_program` returns
`Err(GLError::Message(""))` — an empty text. -/
theorem C8_counterexample :
    (ctx0.link_program drvFail1 p0).1.1 =
      Except.error (GLError.Message []) := by decide

/-- C8 (amended): when linking fails (and the driver fills the info-log
buffer it is handed, `infoLogLength.toNat ≤ infoLogBytes.length`), the
error is `GLError::Message(text)`, and `text` is non-empty for every
driver-reported info-log length except exactly 1; when the reported
length is 1 the text is the empty string. -/
theorem C8_link_failure_message (c : Context) (d : Driver) (p : Program)
    (hfail : d.linkStatusVal ≠ 1)
    (hbuf : d.infoLogLength.toNat ≤ d.infoLogBytes.length) :
    ∃ m, (c.link_program d p).1.1 = Except.error (GLError.Message m) ∧
      (m = [] ↔ d.infoLogLength = 1) := by
  have hresult : (c.link_program d p).1.1 = Except.error (GLError.Message
      (match (c.get_program_info_log d p).1 with
       | some s => s
       | none => unknownProgramError)) := by
    simp [Context.link_program, GL_TRUE, hfail]
  refine ⟨_, hresult, ?_⟩
  by_cases hlen : d.infoLogLength > 0
  · have hlog : (c.get_program_info_log d p).1 =
        utf8Decode (d.infoLogBytes.take (d.infoLogLength - 1).toNat) := by
      simp [Context.get_program_info_log, hlen]
    by_cases h1 : d.infoLogLength = 1
    · rw [hlog, h1]
      simp [utf8Decode, utf8DecodeAux]
    · have hlen2 : (2 : Int) ≤ d.infoLogLength := by omega
      have hlt : ((d.infoLogLength - 1).toNat ≤ d.infoLogBytes.length) := by
        omega
      have hlb : (d.infoLogBytes.take (d.infoLogLength - 1).toNat).length =
          (d.infoLogLength - 1).toNat := by
        rw [List.length_take]
        omega
      have hne : d.infoLogBytes.take (d.infoLogLength - 1).toNat ≠ [] := by
        intro hnil
        rw [hnil] at hlb
        simp at hlb
        omega
      rw [hlog]
      cases hdec : utf8Decode (d.infoLogBytes.take (d.infoLogLength - 1).toNat) with
      | none =>
        simp only []
        constructor
        · intro hctr
          exact absurd hctr (by decide)
        · intro hctr
          exact absurd hctr h1
      | some cs =>
        have hcs := utf8Decode_ne_nil hne hdec
        simp only []
        constructor
        · intro hctr
          exact absurd hctr hcs
        · intro hctr
          exact absurd hctr h1
  · have hlog : (c.get_program_info_log d p).1 = none := by
      simp [Context.get_program_info_log, hlen]
    rw [hlog]
    simp only []
    constructor
    · intro hctr
      exact absurd hctr (by decide)
    · intro hctr
      omega

/-- C8 witness: on a driver reporting link failure with info-log length 0
the message exists and is non-empty (it is not the length-1 case). -/
theorem C8_link_failure_message_witness :
    ∃ m, (ctx0.link_program drvFail0 p0).1.1 =
        Except.error (GLError.Message m) ∧
      (m = [] ↔ drvFail0.infoLogLength = 1) :=
  C8_link_failure_message ctx0 drvFail0 p0 (by decide) (by decide)

/-- C9: a location produced by `get_attrib_location` /
`get_uniform_location` wraps a non-negative `GLint` driver index (so,
with the driver index in the signed 32-bit range, `gl_index < 2^31`), and
the later unsigned-to-signed conversion of that index is value-preserving:
`set_uniform` passes exactly `gl_index` as its (signed) location argument,
and `enable_vertex_attrib_array` passes exactly `gl_index` (unchanged, the
field is already unsigned there). -/
theorem C9_gl_index_range (c : Context) (d : Driver) (p : Program)
    (name : List Nat) (b : ProgramBinding) (e : Nat) (bs : List Nat)
    (hra : d.attribLocationRet < 2 ^ 31) (hru : d.uniformLocationRet < 2 ^ 31) :
    (∀ a : ProgramAttrib, (c.get_attrib_location d p name).1 = Except.ok a →
      a.gl_index < 2 ^ 31 ∧
      asGLint a.gl_index = (a.gl_index : Int) ∧
      c.enable_vertex_attrib_array a =
        [GLCall.EnableVertexAttribArray a.gl_index]) ∧
    (∀ u : ProgramUniform, (c.get_uniform_location d p name).1 = Except.ok u →
      u.gl_index < 2 ^ 31 ∧
      asGLint u.gl_index = (u.gl_index : Int) ∧
      b.set_uniform u ⟨UniformDatumType.Vec1 UniformPrimitiveType.Float, e, bs⟩ =
        [GLCall.Uniform1fv (u.gl_index : Int) (asGLsizei e) bs]) := by
  constructor
  · intro a ha
    simp only [Context.get_attrib_location] at ha
    split at ha
    · simp at ha
    · split at ha
      · rename_i hge
        simp only [Prod.fst] at ha
        have hax : a = { gl_index := d.attribLocationRet.toNat } := by
          cases ha
          rfl
        subst hax
        have hsm : d.attribLocationRet.toNat < 2 ^ 31 := by omega
        exact ⟨hsm, asGLint_of_lt hsm, rfl⟩
      · simp at ha
  · intro u hu
    simp only [Context.get_uniform_location] at hu
    split at hu
    · simp at hu
    · split at hu
      · rename_i hge
        simp only [Prod.fst] at hu
        have hux : u = { gl_index := d.uniformLocationRet.toNat } := by
          cases hu
          rfl
        subst hux
        have hsm : d.uniformLocationRet.toNat < 2 ^ 31 := by omega
        refine ⟨hsm, asGLint_of_lt hsm, ?_⟩
        simp [ProgramBinding.set_uniform, asGLint_of_lt hsm]
      · simp at hu

/-- C9 witness: with driver indices 3 and 4 the resolved locations are in
range and the casts preserve them. -/
theorem C9_gl_index_range_witness :
    ((3 : Nat) < 2 ^ 31 ∧ asGLint 3 = (3 : Int) ∧
      ctx0.enable_vertex_attrib_array { gl_index := 3 } =
        [GLCall.EnableVertexAttribArray 3]) ∧
    ((4 : Nat) < 2 ^ 31 ∧ asGLint 4 = (4 : Int) ∧
      ProgramBinding.mk.set_uniform { gl_index := 4 }
          ⟨UniformDatumType.Vec1 UniformPrimitiveType.Float, 1, [0, 0, 0, 0]⟩ =
        [GLCall.Uniform1fv (4 : Int) (asGLsizei 1) [0, 0, 0, 0]]) :=
  ⟨(C9_gl_index_range ctx0 drv0 p0 [65] ProgramBinding.mk 1 [0, 0, 0, 0]
      (by decide) (by decide)).1 { gl_index := 3 } (by decide),
   (C9_gl_index_range ctx0 drv0 p0 [65] ProgramBinding.mk 1 [0, 0, 0, 0]
      (by decide) (by decide)).2 { gl_index := 4 } (by decide)⟩

/-- C10: the handle stored in a `Program` or `Renderbuffer` wrapper is
fixed at construction: `gl_id()` returns the construction-time handle, and
every operation that takes the wrapper (including the `&mut`-taking
`attach_shader`, `link_program` and the binds) leaves `gl_id`
unchanged. -/
theorem C10_handle_fixed :
    (∀ n : Nat, (Program.mk n).gl_id = n) ∧
    (∀ n : Nat, (Renderbuffer.mk n).gl_id = n) ∧
    (∀ (c : Context) (p : Program) (s : Shader),
      ((c.attach_shader p s).1).gl_id = p.gl_id) ∧
    (∀ (c : Context) (d : Driver) (p : Program),
      ((c.link_program d p).1.2).gl_id = p.gl_id) ∧
    (∀ (b : ProgramBinder) (p : Program),
      ((b.bind p).1.2.2).gl_id = p.gl_id) ∧
    (∀ (b : RenderbufferBinder) (r : Renderbuffer),
      ((b.bind r).1.2.2).gl_id = r.gl_id) ∧
    (∀ (c : ContextOf Unit Unit Unit Unit RenderbufferBinder Unit)
        (r : Renderbuffer),
      ((c.bind_renderbuffer r).1.2).gl_id = r.gl_id) := by
  refine ⟨fun _ => rfl, fun _ => rfl, fun _ _ _ => rfl, ?_,
    fun _ _ => rfl, fun _ _ => rfl, fun _ _ => rfl⟩
  intro c d p
  simp only [Context.link_program]
  split <;> rfl
